import Mathlib

/-!
# project-mongo-api: the request handlers and the seed step of `server.js`

A shallow embedding of `src/server.js`: the two Mongoose models (`Title`,
`Director`), the seed routine `seedDB`, the liveness middleware and the
seven query routes, followed by theorems about them.

What the repository does not contain (Mongoose, the MongoDB server, the
JavaScript `RegExp` engine, the dataset file) is not re-implemented; it is a
field of `Env` or an argument, so every theorem holds for every behaviour of
these collaborators.
-/

set_option autoImplicit false

namespace MongoApi

/-! ## Data model (server.js lines 14-38) -/

/-- Identifier of a stored document (`mongoose.Schema.Types.ObjectId`). -/
abbrev ObjectId := Nat

/-- A document of the `Director` model: `directorsSchema` plus the identifier. -/
structure Director where
  id : ObjectId
  name : String
deriving DecidableEq, Repr

/-- The fields of `titlesSchema`, with the type of the `director` field left
open: a stored title holds a reference, a populated one holds a document. -/
structure TitleOf (δ : Type) where
  id : ObjectId
  show_id : String
  type : String
  title : String
  director : δ
  cast : String
  country : String
  date_added : String
  release_year : Int
  rating : String
  duration : String
  listed_in : String
  description : String
deriving DecidableEq, Repr

/-- A stored document of the `Title` model: `director` is an optional
reference to a `Director`. -/
abbrev Title := TitleOf (Option ObjectId)

/-- What the `director` field of a title holds in a response. -/
inductive DirectorField where
  /-- the field is not set -/
  | absent
  /-- the bare identifier, as stored -/
  | ref (id : ObjectId)
  /-- the referenced `Director` document, after `populate` -/
  | doc (d : Director)
  /-- `populate` found no document for the reference -/
  | null
deriving DecidableEq, Repr

/-- A title as it is serialised in a response. -/
abbrev TitleJson := TitleOf DirectorField

/-- An entry of `./data/netflix-titles.json`: the director is a name. -/
structure Item where
  show_id : String
  type : String
  title : String
  director : String
  cast : String
  country : String
  date_added : String
  release_year : Int
  rating : String
  duration : String
  listed_in : String
  description : String
deriving DecidableEq, Repr

/-- The two collections. -/
structure Store where
  titles : List Title
  directors : List Director
deriving DecidableEq, Repr

/-! ## The store calls the handlers make -/

/-- A call on a Mongoose model, with the arguments the handler passed. -/
inductive StoreCall where
  /-- `Title.find()` -/
  | titleFind
  /-- `Title.find({release_year: year})` -/
  | titleFindYear (year : String)
  /-- `Title.find({cast: {$regex: new RegExp(name, "i")}})` -/
  | titleFindCast (name : String)
  /-- `Title.find({director: id})` -/
  | titleFindDirector (id : ObjectId)
  /-- `Title.findById(id)` -/
  | titleFindById (id : String)
  /-- `.populate('director')` -/
  | populateDirector
  /-- `Director.find()` -/
  | directorFind
  /-- `Director.find({name: {$regex: new RegExp(director, "i")}})` -/
  | directorFindName (director : String)
  /-- `Director.findById(id)` -/
  | directorFindById (id : String)
deriving DecidableEq, Repr

/-- What a rejected promise or a `throw` carries. -/
inductive Exception where
  /-- Mongoose could not cast a query value to the schema type -/
  | castError
  /-- the store call failed for any other reason -/
  | queryError
  /-- `new RegExp` rejected the pattern -/
  | syntaxError
deriving DecidableEq, Repr

/-- The process-wide state and the external behaviour a request meets: the
collections, the connection state, and the parts of Mongoose and of the
JavaScript runtime the handlers call into. -/
structure Env extends Store where
  /-- `mongoose.connection.readyState` -/
  readyState : Nat
  /-- Cast of a path segment to an `ObjectId`; `none` is a `CastError`. -/
  castObjectId : String → Option ObjectId
  /-- Cast of a query value to the `Number` type of `release_year`; `none` is
  a `CastError`, otherwise the equality test against a stored value. -/
  castNumber : String → Option (Int → Bool)
  /-- Case folding of the `i` flag of `RegExp`. -/
  canonicalize : Char → Char
  /-- `new RegExp(source, "i")` for a source that uses more pattern syntax than
  literal characters and `.`: `none` is a `SyntaxError`, otherwise the test the
  expression performs on a string. -/
  regExpOther : String → Option (String → Bool)
  /-- The store calls that fail although their arguments cast. -/
  rejects : StoreCall → Bool

/-! ## Regular expressions built from a query value -/

/-- The characters with a meaning in pattern syntax. -/
def syntaxCharacters : List Char :=
  ['\\', '^', '$', '.', '|', '?', '*', '+', '(', ')', '[', ']', '{', '}']

/-- One element of a pattern made of literal characters and `.`. -/
inductive PatternAtom where
  | char (c : Char)
  | dot
deriving DecidableEq, Repr

/-- Reads a source made only of literal characters and `.`. -/
def parseAtoms : List Char → Option (List PatternAtom)
  | [] => some []
  | c :: cs =>
    if c = '.' then (parseAtoms cs).map (PatternAtom.dot :: ·)
    else if c ∈ syntaxCharacters then none
    else (parseAtoms cs).map (PatternAtom.char c :: ·)

/-- Line terminators, which `.` does not match. -/
def isLineTerminator (c : Char) : Bool :=
  c = '\n' || c = '\r' || c = Char.ofNat 0x2028 || c = Char.ofNat 0x2029

/-- Does one atom match one character, ignoring case? -/
def atomMatches (canon : Char → Char) : PatternAtom → Char → Bool
  | .char p, c => canon p = canon c
  | .dot, c => !isLineTerminator c

/-- Do the atoms match a prefix of the text? -/
def matchHere (canon : Char → Char) : List PatternAtom → List Char → Bool
  | [], _ => true
  | _ :: _, [] => false
  | a :: as, c :: cs => atomMatches canon a c && matchHere canon as cs

/-- Do the atoms match somewhere in the text? A `RegExp` is not anchored. -/
def search (canon : Char → Char) (atoms : List PatternAtom) : List Char → Bool
  | [] => matchHere canon atoms []
  | c :: cs => matchHere canon atoms (c :: cs) || search canon atoms cs

/-- The expression `new RegExp(source, "i")`: `none` when the constructor
throws, otherwise the test the expression performs. -/
def newRegExp (env : Env) (source : String) : Option (String → Bool) :=
  match parseAtoms source.data with
  | some atoms => some (fun text => search env.canonicalize atoms text.data)
  | none => env.regExpOther source

/-! ## Effects of a handler: the store calls made, then a value or an exception -/

/-- A computation that makes store calls and ends with a value or throws. -/
structure Eff (α : Type) where
  calls : List StoreCall
  result : Except Exception α

namespace Eff

/-- A finished computation. -/
def pure {α : Type} (a : α) : Eff α := ⟨[], .ok a⟩

/-- A `throw`. -/
def throw {α : Type} (e : Exception) : Eff α := ⟨[], .error e⟩

/-- Sequencing, as `await` does: an exception skips the rest. -/
def bind {α β : Type} (m : Eff α) (f : α → Eff β) : Eff β :=
  match m.result with
  | .ok a => ⟨m.calls ++ (f a).calls, (f a).result⟩
  | .error e => ⟨m.calls, .error e⟩

/-- The statement `try { body } catch { handler }`. -/
def tryCatch {α : Type} (body handler : Eff α) : Eff α :=
  match body.result with
  | .ok a => ⟨body.calls, .ok a⟩
  | .error _ => ⟨body.calls ++ handler.calls, handler.result⟩

end Eff

instance : Monad Eff where
  pure := Eff.pure
  bind := Eff.bind

/-- One store call: it is recorded, and it rejects when the environment says so. -/
def storeCall {α : Type} (env : Env) (c : StoreCall) (value : α) : Eff α :=
  ⟨[c], if env.rejects c then .error .queryError else .ok value⟩

/-- The function `Title.find()`. -/
def Env.titleFind (env : Env) : Eff (List Title) :=
  storeCall env .titleFind env.titles

/-- The function `Title.find({release_year: year})`. -/
def Env.titleFindYear (env : Env) (year : String) : Eff (List Title) :=
  match env.castNumber year with
  | none => ⟨[.titleFindYear year], .error .castError⟩
  | some test => storeCall env (.titleFindYear year) (env.titles.filter (fun t => test t.release_year))

/-- The function `Title.find({cast: {$regex: re}})`. -/
def Env.titleFindCast (env : Env) (name : String) (re : String → Bool) : Eff (List Title) :=
  storeCall env (.titleFindCast name) (env.titles.filter (fun t => re t.cast))

/-- The function `Title.find({director: id})`. -/
def Env.titleFindDirector (env : Env) (id : ObjectId) : Eff (List Title) :=
  storeCall env (.titleFindDirector id) (env.titles.filter (fun t => t.director = some id))

/-- The function `Title.findById(id)`. -/
def Env.titleFindById (env : Env) (id : String) : Eff (Option Title) :=
  match env.castObjectId id with
  | none => ⟨[.titleFindById id], .error .castError⟩
  | some oid => storeCall env (.titleFindById id) (env.titles.find? (fun t => t.id = oid))

/-- The function `Director.find()`. -/
def Env.directorFind (env : Env) : Eff (List Director) :=
  storeCall env .directorFind env.directors

/-- The function `Director.find({name: {$regex: re}})`. -/
def Env.directorFindName (env : Env) (director : String) (re : String → Bool) :
    Eff (List Director) :=
  storeCall env (.directorFindName director) (env.directors.filter (fun d => re d.name))

/-- The function `Director.findById(id)`. -/
def Env.directorFindById (env : Env) (id : String) : Eff (Option Director) :=
  match env.castObjectId id with
  | none => ⟨[.directorFindById id], .error .castError⟩
  | some oid => storeCall env (.directorFindById id) (env.directors.find? (fun d => d.id = oid))

/-- Copies a title, replacing its `director` field. -/
def TitleOf.withDirector {δ ε : Type} (t : TitleOf δ) (d : ε) : TitleOf ε :=
  { id := t.id, show_id := t.show_id, type := t.type, title := t.title, director := d,
    cast := t.cast, country := t.country, date_added := t.date_added,
    release_year := t.release_year, rating := t.rating, duration := t.duration,
    listed_in := t.listed_in, description := t.description }

/-- The join of one title: the reference becomes the referenced document, or
`null` when no `Director` has that identifier. -/
def populateOne (directors : List Director) (t : Title) : TitleJson :=
  t.withDirector
    (match t.director with
     | none => DirectorField.absent
     | some oid =>
       match directors.find? (fun d => d.id = oid) with
       | some d => DirectorField.doc d
       | none => DirectorField.null)

/-- A title returned without a join: the reference stays an identifier. -/
def unpopulated (t : Title) : TitleJson :=
  t.withDirector
    (match t.director with
     | none => DirectorField.absent
     | some oid => DirectorField.ref oid)

/-- The call `.populate('director')` on a list of titles. -/
def Env.populate (env : Env) (ts : List Title) : Eff (List TitleJson) :=
  storeCall env .populateDirector (ts.map (populateOne env.directors))

/-- The call `.populate('director')` on the result of `findById`. -/
def Env.populateOpt (env : Env) (t : Option Title) : Eff (Option TitleJson) :=
  storeCall env .populateDirector (t.map (populateOne env.directors))

/-! ## Responses -/

/-- The JSON bodies the routes send. -/
inductive Body where
  /-- `{ error: msg }` -/
  | error (msg : String)
  /-- `{ length, data }` with titles -/
  | titleList (length : Nat) (data : List TitleJson)
  /-- `{ data }` with one title or `null` -/
  | title (data : Option TitleJson)
  /-- `{ length, data }` with directors -/
  | directorList (length : Nat) (data : List Director)
  /-- `{ data }` with directors -/
  | directorData (data : List Director)
  /-- `{ data }` with one director -/
  | director (data : Director)
  /-- the list `listEndpoints(app)` -/
  | endpoints
deriving DecidableEq, Repr

/-- A response: status code and body. -/
structure Response where
  status : Nat
  body : Body
deriving DecidableEq, Repr

/-- The call `res.json(body)`: status 200. -/
def json (body : Body) : Response := ⟨200, body⟩

/-- The call `res.status(code).json(body)`. -/
def statusJson (code : Nat) (body : Body) : Response := ⟨code, body⟩

/-- How the handling of a request ends. -/
inductive Outcome where
  /-- a response was sent -/
  | sent (r : Response)
  /-- the handler finished without sending anything -/
  | noResponse
  /-- the promise of the handler rejected: no response, an unhandled rejection -/
  | unhandledRejection (e : Exception)
deriving DecidableEq, Repr

/-- The observable run of a request: the store calls made, and the outcome. -/
structure Run where
  calls : List StoreCall
  outcome : Outcome
deriving DecidableEq, Repr

/-- The run of a handler whose value is the response it sent, if any. -/
def Eff.run (m : Eff (Option Response)) : Run :=
  ⟨m.calls,
    match m.result with
    | .ok (some r) => .sent r
    | .ok none => .noResponse
    | .error e => .unhandledRejection e⟩

/-- The condition `if (x)` on a query value: absent and empty are falsy. -/
def truthy : Option String → Option String
  | some s => if s = "" then none else some s
  | none => none

/-! ## The route handlers (server.js lines 86-200) -/

/-- Handler of `GET /` (lines 86-88). -/
def getRoot : Eff (Option Response) :=
  pure (some ⟨200, .endpoints⟩)

/-- Handler of `GET /titles` (lines 91-99). -/
def getTitles (env : Env) : Eff (Option Response) :=
  Eff.tryCatch
    (do
      let titles ← (env.titleFind >>= env.populate)
      pure (some (json (.titleList titles.length titles))))
    (pure (some (statusJson 400 (.error "No results"))))

/-- Handler of `GET /titles/year` (lines 102-113). -/
def getTitlesYear (env : Env) (year : Option String) : Eff (Option Response) :=
  Eff.tryCatch
    (match truthy year with
     | some y => do
       let queriedYear ← (env.titleFindYear y >>= env.populate)
       pure (some (json (.titleList queriedYear.length queriedYear)))
     | none => pure none)
    (pure (some (statusJson 400 (.error "No results"))))

/-- Handler of `GET /titles/cast` (lines 120-135). -/
def getTitlesCast (env : Env) (name : Option String) : Eff (Option Response) :=
  Eff.tryCatch
    (match truthy name with
     | some n => do
       let re ← (match newRegExp env n with
                 | some re => pure re
                 | none => Eff.throw .syntaxError)
       let queriedCast ← (env.titleFindCast n re >>= env.populate)
       pure (some (json (.titleList queriedCast.length queriedCast)))
     | none => pure none)
    (pure (some (statusJson 400 (.error "No results"))))

/-- Handler of `GET /titles/:id` (lines 138-147). -/
def getTitleById (env : Env) (id : String) : Eff (Option Response) :=
  Eff.tryCatch
    (do
      let singleTitle ← (env.titleFindById id >>= env.populateOpt)
      pure (some (json (.title singleTitle))))
    (pure (some (statusJson 404 (.error "ID not found"))))

/-- Handler of `GET /directors` (lines 151-169). -/
def getDirectors (env : Env) (director : Option String) : Eff (Option Response) :=
  Eff.tryCatch
    (match truthy director with
     | some s => do
       let re ← (match newRegExp env s with
                 | some re => pure re
                 | none => Eff.throw .syntaxError)
       let directors ← env.directorFindName s re
       pure (some (json (.directorList directors.length directors)))
     | none => do
       let directors ← env.directorFind
       pure (some (json (.directorData directors))))
    (pure (some (statusJson 400 (.error "Director not found"))))

/-- Handler of `GET /directors/:id` (lines 172-185). -/
def getDirectorById (env : Env) (id : String) : Eff (Option Response) :=
  Eff.tryCatch
    (do
      let oneDirector ← env.directorFindById id
      match oneDirector with
      | some d => pure (some (json (.director d)))
      | none => pure (some (statusJson 404 (.error "Not found"))))
    (pure (some (statusJson 400 (.error "Invalid request"))))

/-- Handler of `GET /directors/:id/titles` (lines 188-200). The director is
looked up before the `try`; `mongoose.Types.ObjectId(director.id)` is the
identifier of the document found. -/
def getDirectorTitles (env : Env) (id : String) : Eff (Option Response) := do
  let director ← env.directorFindById id
  Eff.tryCatch
    (match director with
     | some d => do
       let titles ← env.titleFindDirector d.id
       pure (some (json (.titleList titles.length (titles.map unpopulated))))
     | none => pure none)
    (pure (some (statusJson 404 (.error "Director not found"))))

/-! ## The application: middleware, then the routes (lines 72-200) -/

/-- A request on one of the registered routes, with its parameters: a query
parameter is absent or a string, a path segment is a string. -/
inductive Request where
  | root
  | titles
  | titlesYear (year : Option String)
  | titlesCast (name : Option String)
  | titleById (id : String)
  | directors (director : Option String)
  | directorById (id : String)
  | directorTitles (id : String)
deriving DecidableEq, Repr

/-- What a middleware does with a request. -/
inductive Gate where
  /-- `next()` -/
  | next
  /-- it answers itself -/
  | respond (r : Response)
deriving DecidableEq, Repr

/-- The middleware of lines 78-84. -/
def livenessGate (env : Env) : Gate :=
  if env.readyState = 1 then .next
  else .respond (statusJson 503 (.error "Service unavailable"))

/-- The handler the router selects. -/
def route (env : Env) : Request → Eff (Option Response)
  | .root => getRoot
  | .titles => getTitles env
  | .titlesYear year => getTitlesYear env year
  | .titlesCast name => getTitlesCast env name
  | .titleById id => getTitleById env id
  | .directors director => getDirectors env director
  | .directorById id => getDirectorById env id
  | .directorTitles id => getDirectorTitles env id

/-- The application on a request: `cors()` and `express.json()` pass a `GET`
request without a body on, then the liveness middleware, then the route. -/
def app (env : Env) (req : Request) : Run :=
  match livenessGate env with
  | .next => (route env req).run
  | .respond r => ⟨[], .sent r⟩

/-! ## The seed step (lines 40-69) -/

/-- The document `new Director({"name": item.director})`, with a new identifier. -/
def newDirector (id : ObjectId) (item : Item) : Director :=
  { id := id, name := item.director }

/-- The callback of the first `forEach` (lines 49-56): a document is built for
every item, and pushed and saved when the name of the item is not empty. The
state is the array `directors` and the next unused identifier. -/
def pushDirector (acc : List Director × ObjectId) (item : Item) : List Director × ObjectId :=
  let director := newDirector acc.2 item
  if item.director ≠ "" then (acc.1 ++ [director], acc.2 + 1) else (acc.1, acc.2 + 1)

/-- The first `forEach` (lines 49-56), from an empty array. -/
def pushDirectors (items : List Item) (nextId : ObjectId) : List Director × ObjectId :=
  items.foldl pushDirector ([], nextId)

/-- The document `new Title({...item, director: found})`: the fields of the
item, and the identifier of the director document found, if any. -/
def newTitle (id : ObjectId) (item : Item) (found : Option Director) : Title :=
  { id := id, show_id := item.show_id, type := item.type, title := item.title,
    director := found.map (·.id), cast := item.cast, country := item.country,
    date_added := item.date_added, release_year := item.release_year, rating := item.rating,
    duration := item.duration, listed_in := item.listed_in, description := item.description }

/-- The callback of the second `forEach` (lines 59-65): one title per item,
referring to the first pushed director whose name is the name of the item. -/
def pushTitle (directors : List Director) (acc : List Title × ObjectId) (item : Item) :
    List Title × ObjectId :=
  (acc.1 ++ [newTitle acc.2 item (directors.find? (fun singleDirector =>
      singleDirector.name = item.director))], acc.2 + 1)

/-- The second `forEach` (lines 59-65), from an empty collection. -/
def pushTitles (items : List Item) (directors : List Director) (nextId : ObjectId) :
    List Title × ObjectId :=
  items.foldl (pushTitle directors) ([], nextId)

/-- The routine `seedDB` on the dataset `netflixTitles`: both collections are
emptied, then filled from the first 800 entries; every `save` succeeds, and
`nextId` is the first unused identifier. -/
def seedDB (netflixTitles : List Item) (nextId : ObjectId) (_old : Store) : Store :=
  let items := netflixTitles.take 800
  let pushed := pushDirectors items nextId
  let titles := pushTitles items pushed.1 pushed.2
  { titles := titles.1, directors := pushed.1 }

/-! ## Concrete environments -/

/-- Value of a hexadecimal digit. -/
def hexDigit (c : Char) : Option Nat :=
  if 48 ≤ c.toNat ∧ c.toNat ≤ 57 then some (c.toNat - 48)
  else if 97 ≤ c.toNat ∧ c.toNat ≤ 102 then some (c.toNat - 87)
  else if 65 ≤ c.toNat ∧ c.toNat ≤ 70 then some (c.toNat - 55)
  else none

/-- An `ObjectId` cast for concrete environments: the string of 24
hexadecimal digits, read as a number; every other string is a `CastError`. -/
def hexObjectId (s : String) : Option ObjectId :=
  if s.data.length = 24 then
    s.data.foldl (fun acc c => acc.bind (fun a => (hexDigit c).map (fun d => 16 * a + d))) (some 0)
  else none

/-- A `Number` cast for concrete environments: a string of decimal digits. -/
def decimalNumber (s : String) : Option (Int → Bool) :=
  if s.data ≠ [] ∧ s.data.all Char.isDigit then
    some (fun y => y = Int.ofNat (s.data.foldl (fun a c => 10 * a + (c.toNat - 48)) 0))
  else none

/-- A connected environment over the given collections in which no store call
fails unless a cast does, and every pattern with further syntax is rejected. -/
def connected (titles : List Title) (directors : List Director) : Env :=
  { titles := titles, directors := directors, readyState := 1,
    castObjectId := hexObjectId, castNumber := decimalNumber,
    canonicalize := Char.toUpper, regExpOther := fun _ => none,
    rejects := fun _ => false }

/-- A title with the given identifier, name, cast and director reference. -/
def sampleTitle (id : ObjectId) (title cast : String) (director : Option ObjectId) : Title :=
  { id := id, show_id := "s1", type := "Movie", title := title, director := director,
    cast := cast, country := "", date_added := "", release_year := 2019, rating := "",
    duration := "", listed_in := "", description := "" }

/-- A dataset entry with the given title and director name. -/
def sampleItem (title director : String) : Item :=
  { show_id := "s1", type := "Movie", title := title, director := director, cast := "",
    country := "", date_added := "", release_year := 2019, rating := "", duration := "",
    listed_in := "", description := "" }

/-! ## Notions the specification uses -/

/-- In the words of the specification: `s` is a case-insensitive substring of
`text`, that is, after case folding the characters of `s` occur in `text` as a
contiguous run. -/
def isSubstringIgnoringCase (canon : Char → Char) (s text : String) : Prop :=
  s.data.map canon <:+: text.data.map canon

instance (canon : Char → Char) (s text : String) :
    Decidable (isSubstringIgnoringCase canon s text) := by
  unfold isSubstringIgnoringCase
  infer_instance

/-- In the words of the specification: the distinct non-empty director names
occurring in the loaded part of the dataset, the first 800 entries, compared
literally. -/
def distinctDirectorNames (netflixTitles : List Item) : List String :=
  (((netflixTitles.take 800).map (fun item => item.director)).filter (fun n => n ≠ "")).dedup

/-! ## Basic facts about effects and store calls -/

theorem bind_eq {α β : Type} (m : Eff α) (f : α → Eff β) : (m >>= f) = Eff.bind m f := rfl

theorem pure_eq {α : Type} (a : α) : (Pure.pure a : Eff α) = Eff.pure a := rfl

theorem pure_bind {α β : Type} (a : α) (f : α → Eff β) : Eff.bind (Eff.pure a) f = f a := by
  simp [Eff.bind, Eff.pure]

theorem storeCall_calls {α : Type} (env : Env) (c : StoreCall) (v : α) :
    (storeCall env c v).calls = [c] := rfl

theorem storeCall_result {α : Type} (env : Env) (c : StoreCall) (v : α) :
    (storeCall env c v).result = if env.rejects c then .error .queryError else .ok v := rfl

theorem directorFindById_calls (env : Env) (id : String) :
    (env.directorFindById id).calls = [.directorFindById id] := by
  unfold Env.directorFindById
  cases env.castObjectId id <;> rfl

theorem titleFindById_calls (env : Env) (id : String) :
    (env.titleFindById id).calls = [.titleFindById id] := by
  unfold Env.titleFindById
  cases env.castObjectId id <;> rfl

/-- The run of `GET /directors/:id`, by the result of the lookup. -/
theorem getDirectorById_run (env : Env) (id : String) :
    (getDirectorById env id).run =
      ⟨[.directorFindById id],
        match (env.directorFindById id).result with
        | .ok (some d) => .sent ⟨200, .director d⟩
        | .ok none => .sent ⟨404, .error "Not found"⟩
        | .error _ => .sent ⟨400, .error "Invalid request"⟩⟩ := by
  have hc := directorFindById_calls env id
  unfold getDirectorById Eff.run Eff.tryCatch
  simp only [bind_eq, pure_eq, Eff.bind, Eff.pure]
  rcases h : (env.directorFindById id).result with e | (_ | d) <;>
    simp [hc, json, statusJson]

/-- The run of `GET /directors/:id/titles`, by the results of its two calls. -/
theorem getDirectorTitles_run (env : Env) (id : String) :
    (getDirectorTitles env id).run =
      match (env.directorFindById id).result with
      | .error e => ⟨[.directorFindById id], .unhandledRejection e⟩
      | .ok none => ⟨[.directorFindById id], .noResponse⟩
      | .ok (some d) =>
        ⟨[.directorFindById id, .titleFindDirector d.id],
          if env.rejects (.titleFindDirector d.id) then
            .sent ⟨404, .error "Director not found"⟩
          else
            .sent ⟨200, .titleList (env.titles.filter (fun t => t.director = some d.id)).length
              ((env.titles.filter (fun t => t.director = some d.id)).map unpopulated)⟩⟩ := by
  have hc := directorFindById_calls env id
  unfold getDirectorTitles Eff.run
  simp only [bind_eq, pure_eq, Eff.bind, Eff.pure, Eff.tryCatch]
  rcases h : (env.directorFindById id).result with e | (_ | d)
  · simp [hc]
  · simp [hc]
  · by_cases hr : env.rejects (.titleFindDirector d.id) = true <;>
      simp [hc, hr, Env.titleFindDirector, storeCall, json, statusJson]

/-! ## Theorems -/

/-- C3: on every route, when `readyState` is not 1 the liveness middleware
answers 503 with `{error: "Service unavailable"}` and the run of the request is
that response with no store call, so no handler runs; when `readyState` is 1
the middleware answers nothing, calls `next()`, and the run of the request is
the run of the route handler. -/
theorem liveness_gate (env : Env) (req : Request) :
    (env.readyState ≠ 1 →
      livenessGate env = .respond ⟨503, .error "Service unavailable"⟩ ∧
      app env req = ⟨[], .sent ⟨503, .error "Service unavailable"⟩⟩) ∧
    (env.readyState = 1 →
      livenessGate env = .next ∧ app env req = (route env req).run) := by
  constructor
  · intro h
    simp [app, livenessGate, h, statusJson]
  · intro h
    simp [app, livenessGate, h]

/-- Witness of C3: a disconnected environment (`readyState` 0) on `GET /titles`,
and a connected one on the same route. -/
theorem liveness_gate_witness :
    app { connected [sampleTitle 5 "T" "Ann Lee" none] [] with readyState := 0 } .titles
        = ⟨[], .sent ⟨503, .error "Service unavailable"⟩⟩ ∧
      app (connected [sampleTitle 5 "T" "Ann Lee" none] []) .titles
        = (route (connected [sampleTitle 5 "T" "Ann Lee" none] []) .titles).run :=
  ⟨((liveness_gate { connected [sampleTitle 5 "T" "Ann Lee" none] [] with readyState := 0 }
      .titles).1 (by decide)).2,
   ((liveness_gate (connected [sampleTitle 5 "T" "Ann Lee" none] []) .titles).2 (by decide)).2⟩

/-- C5: `GET /directors/:id` has exactly three outcomes: 200 with `{data: d}`
if and only if the lookup succeeds and finds director `d`; 404 with
`{error: "Not found"}` if and only if the lookup succeeds and finds nothing;
400 with `{error: "Invalid request"}` if and only if the lookup fails. -/
theorem director_by_id_three_outcomes (env : Env) (id : String) :
    (∀ d, (getDirectorById env id).run.outcome = .sent ⟨200, .director d⟩ ↔
        (env.directorFindById id).result = .ok (some d)) ∧
    ((getDirectorById env id).run.outcome = .sent ⟨404, .error "Not found"⟩ ↔
        (env.directorFindById id).result = .ok none) ∧
    ((getDirectorById env id).run.outcome = .sent ⟨400, .error "Invalid request"⟩ ↔
        ∃ e, (env.directorFindById id).result = .error e) ∧
    ((∃ d, (getDirectorById env id).run.outcome = .sent ⟨200, .director d⟩) ∨
      (getDirectorById env id).run.outcome = .sent ⟨404, .error "Not found"⟩ ∨
      (getDirectorById env id).run.outcome = .sent ⟨400, .error "Invalid request"⟩) := by
  rw [getDirectorById_run]
  rcases h : (env.directorFindById id).result with e | (_ | d) <;> simp

/-- A handler of the shape `try { body } catch { res.status(..).json(..) }`
never leaves a rejection unhandled. -/
theorem tryCatch_run_handled (body : Eff (Option Response)) (r : Response) (e : Exception) :
    (Eff.tryCatch body (pure (some r))).run.outcome ≠ .unhandledRejection e := by
  unfold Eff.tryCatch Eff.run
  rcases h : body.result with e' | (_ | r') <;> simp [pure_eq, Eff.pure]

/-- The six routes that make their store calls inside the `try` answer every
failure with an error envelope: no rejection is left unhandled. -/
theorem other_routes_catch (env : Env) (req : Request) (e : Exception)
    (h : ∀ id, req ≠ .directorTitles id) :
    (route env req).run.outcome ≠ .unhandledRejection e := by
  cases req with
  | root => simp [route, getRoot, Eff.run, pure_eq, Eff.pure]
  | titles => exact tryCatch_run_handled _ _ e
  | titlesYear year => exact tryCatch_run_handled _ _ e
  | titlesCast name => exact tryCatch_run_handled _ _ e
  | titleById id => exact tryCatch_run_handled _ _ e
  | directors director => exact tryCatch_run_handled _ _ e
  | directorById id => exact tryCatch_run_handled _ _ e
  | directorTitles id => exact absurd rfl (h id)

/-- C1 (defect in the code): the store holds director 1 only, and
`GET /directors/000000000000000000000002/titles` asks for director 2. The
lookup succeeds and finds nothing; the handler then sends no response at all,
where the specification requires 404 with an error envelope. -/
theorem director_titles_unknown_id_sends_nothing :
    app (connected [sampleTitle 5 "T" "Ann Lee" (some 1)] [⟨1, "Ann"⟩])
        (.directorTitles "000000000000000000000002")
      = ⟨[.directorFindById "000000000000000000000002"], .noResponse⟩ := by
  decide

/-- C2 (defect in the code): on `GET /directors/abc/titles` the identifier does
not cast, the lookup `Director.findById` rejects before the `try` is entered,
and the rejection is left unhandled: no response is sent, where the specification
requires 404 with an error envelope. -/
theorem director_titles_malformed_id_unhandled :
    app (connected [sampleTitle 5 "T" "Ann Lee" (some 1)] [⟨1, "Ann"⟩])
        (.directorTitles "abc")
      = ⟨[.directorFindById "abc"], .unhandledRejection .castError⟩ := by
  decide

/-- The join resolves a reference to the document of the director. -/
theorem populateOne_director (directors : List Director) (t : Title) (oid : ObjectId)
    (d : Director) (ht : t.director = some oid)
    (hd : directors.find? (fun x => x.id = oid) = some d) :
    (populateOne directors t).director = .doc d := by
  simp [populateOne, TitleOf.withDirector, ht, hd]

/-- A list query followed by `populate`, inside the `try`: the answer is the
error envelope, or 200 with the join of the titles the query found. -/
theorem list_query_outcome (env : Env) (q : Eff (List Title)) (failure : Response) :
    (Eff.tryCatch
        (do
          let ts ← (q >>= env.populate)
          pure (some (json (.titleList ts.length ts))))
        (pure (some failure))).run.outcome = .sent failure ∨
      ∃ ts, q.result = .ok ts ∧
        (Eff.tryCatch
          (do
            let ts ← (q >>= env.populate)
            pure (some (json (.titleList ts.length ts))))
          (pure (some failure))).run.outcome
          = .sent ⟨200, .titleList (ts.map (populateOne env.directors)).length
              (ts.map (populateOne env.directors))⟩ := by
  unfold Eff.run Eff.tryCatch
  simp only [bind_eq, pure_eq, Eff.bind, Eff.pure]
  rcases hq : q.result with e | ts
  · simp
  · by_cases hp : env.rejects .populateDirector = true
    · simp [Env.populate, storeCall, hp]
    · right
      exact ⟨ts, rfl, by simp [Env.populate, storeCall, hp, json]⟩

/-- A successful store call returns the value it was given. -/
theorem storeCall_ok {α : Type} (env : Env) (c : StoreCall) (v w : α)
    (h : (storeCall env c v).result = .ok w) : w = v := by
  unfold storeCall at h
  by_cases hr : env.rejects c = true
  · simp [hr] at h
  · simp [hr] at h
    exact h.symm

/-- The three routes that list titles with a join return, on success, the
join of stored titles. -/
theorem list_routes_join (env : Env) (req : Request)
    (hreq : req = .titles ∨ (∃ y, req = .titlesYear y) ∨ (∃ n, req = .titlesCast n))
    (length : Nat) (data : List TitleJson)
    (hout : (route env req).run.outcome = .sent ⟨200, .titleList length data⟩) :
    ∀ t' ∈ data, ∃ t ∈ env.titles, t' = populateOne env.directors t := by
  have key : ∀ (q : Eff (List Title)) (failure : Response), failure.status = 400 →
      (∀ ts, q.result = .ok ts → ∀ t ∈ ts, t ∈ env.titles) →
      (Eff.tryCatch
        (do
          let ts ← (q >>= env.populate)
          pure (some (json (.titleList ts.length ts))))
        (pure (some failure))).run.outcome = .sent ⟨200, .titleList length data⟩ →
      ∀ t' ∈ data, ∃ t ∈ env.titles, t' = populateOne env.directors t := by
    intro q failure hf hsub hrun t' ht'
    rcases list_query_outcome env q failure with h | ⟨ts, hts, h⟩
    · rw [h] at hrun
      simp only [Outcome.sent.injEq] at hrun
      rw [hrun] at hf
      simp at hf
    · rw [h] at hrun
      simp only [Outcome.sent.injEq, Response.mk.injEq, Body.titleList.injEq, true_and] at hrun
      rw [← hrun.2, List.mem_map] at ht'
      obtain ⟨t, ht, rfl⟩ := ht'
      exact ⟨t, hsub ts hts t ht, rfl⟩
  rcases hreq with rfl | ⟨y, rfl⟩ | ⟨n, rfl⟩
  · refine key env.titleFind _ rfl ?_ hout
    intro ts hts t ht
    rw [storeCall_ok env _ _ _ hts] at ht
    exact ht
  · simp only [route, getTitlesYear] at hout
    rcases hy : truthy y with _ | y'
    · simp [hy, Eff.tryCatch, Eff.run, pure_eq, Eff.pure] at hout
    · rw [hy] at hout
      refine key (env.titleFindYear y') _ rfl ?_ hout
      intro ts hts t ht
      unfold Env.titleFindYear at hts
      rcases hc : env.castNumber y' with _ | test
      · simp [hc] at hts
      · rw [hc] at hts
        rw [storeCall_ok env _ _ _ hts] at ht
        exact (List.mem_filter.mp ht).1
  · simp only [route, getTitlesCast] at hout
    rcases hn : truthy n with _ | n'
    · simp [hn, Eff.tryCatch, Eff.run, pure_eq, Eff.pure] at hout
    · rw [hn] at hout
      rcases hre : newRegExp env n' with _ | re
      · simp [hre, Eff.tryCatch, Eff.run, bind_eq, Eff.bind, Eff.throw, pure_eq, Eff.pure,
          statusJson] at hout
      · simp only [hre, bind_eq, pure_eq, pure_bind] at hout
        refine key (env.titleFindCast n' re) _ rfl ?_ hout
        intro ts hts t ht
        rw [storeCall_ok env _ _ _ hts] at ht
        exact (List.mem_filter.mp ht).1

/-- C6 (defect in the code): title 5 refers to director 1, who exists.
`GET /directors/000000000000000000000001/titles` returns the title with the
bare identifier in its `director` field (the query has no `populate`), while
`GET /titles` on the same store returns it with the director document. -/
theorem director_titles_not_populated :
    app (connected [sampleTitle 5 "T" "Ann Lee" (some 1)] [⟨1, "Ann"⟩])
        (.directorTitles "000000000000000000000001")
      = ⟨[.directorFindById "000000000000000000000001", .titleFindDirector 1],
          .sent ⟨200, .titleList 1
            [(sampleTitle 5 "T" "Ann Lee" (some 1)).withDirector (DirectorField.ref 1)]⟩⟩ ∧
    app (connected [sampleTitle 5 "T" "Ann Lee" (some 1)] [⟨1, "Ann"⟩]) .titles
      = ⟨[.titleFind, .populateDirector],
          .sent ⟨200, .titleList 1
            [(sampleTitle 5 "T" "Ann Lee" (some 1)).withDirector
              (DirectorField.doc ⟨1, "Ann"⟩)]⟩⟩ := by
  decide

/-- A stored title that refers to `oid`, returned without a join, is the
record of its stored fields with the identifier `oid` in the `director` field. -/
theorem unpopulated_fields (t : Title) (oid : ObjectId) (h : t.director = some oid) :
    unpopulated t =
      { id := t.id, show_id := t.show_id, type := t.type, title := t.title,
        director := DirectorField.ref oid, cast := t.cast, country := t.country,
        date_added := t.date_added, release_year := t.release_year, rating := t.rating,
        duration := t.duration, listed_in := t.listed_in, description := t.description } := by
  simp [unpopulated, TitleOf.withDirector, h]

/-- C8: when `id` casts to the identifier of a stored director and neither
store call fails, `GET /directors/:id/titles` answers 200 with `{length, data}`
where `data` is the stored titles whose `director` reference is that
identifier, in stored order, each with every stored field unchanged (`id`,
`show_id`, `type`, `title`, `cast`, `country`, `date_added`, `release_year`,
`rating`, `duration`, `listed_in`, `description`) and the identifier in its
`director` field, and `length` is the number of elements of `data`; when no
stored title refers to the director the body is `{length: 0, data: []}`. -/
theorem director_titles_of_existing_director (env : Env) (id : String) (oid : ObjectId)
    (d : Director) (hcast : env.castObjectId id = some oid) (hd : d ∈ env.directors)
    (hid : d.id = oid) (h1 : env.rejects (.directorFindById id) = false)
    (h2 : env.rejects (.titleFindDirector oid) = false) :
    (getDirectorTitles env id).run.outcome =
        .sent ⟨200, .titleList
          ((env.titles.filter (fun t => t.director = some oid)).map unpopulated).length
          ((env.titles.filter (fun t => t.director = some oid)).map unpopulated)⟩ ∧
    ((∀ t ∈ env.titles, t.director ≠ some oid) →
      (getDirectorTitles env id).run.outcome = .sent ⟨200, .titleList 0 []⟩) ∧
    (getDirectorTitles env id).run.outcome =
        .sent ⟨200, .titleList
          (env.titles.filter (fun t => t.director = some oid)).length
          ((env.titles.filter (fun t => t.director = some oid)).map (fun t =>
            ({ id := t.id, show_id := t.show_id, type := t.type, title := t.title,
               director := DirectorField.ref oid, cast := t.cast, country := t.country,
               date_added := t.date_added, release_year := t.release_year,
               rating := t.rating, duration := t.duration, listed_in := t.listed_in,
               description := t.description } : TitleJson)))⟩ := by
  have hfind : ∃ d', env.directors.find? (fun x => x.id = oid) = some d' ∧ d'.id = oid := by
    cases hf : env.directors.find? (fun x => decide (x.id = oid)) with
    | none =>
      rw [List.find?_eq_none] at hf
      exact absurd (by simpa using hid) (hf d hd)
    | some d' => exact ⟨d', rfl, by simpa using List.find?_some hf⟩
  obtain ⟨d', hf, hd'⟩ := hfind
  have hres : (env.directorFindById id).result = .ok (some d') := by
    simp [Env.directorFindById, hcast, storeCall, h1, hf]
  have hrun := getDirectorTitles_run env id
  rw [hres] at hrun
  simp only [hd', h2] at hrun
  rw [hrun]
  refine ⟨by simp, ?_, ?_⟩
  · intro hnone
    have : env.titles.filter (fun t => decide (t.director = some oid)) = [] := by
      rw [List.filter_eq_nil_iff]
      intro t ht
      simpa using hnone t ht
    simp [this]
  · have hmap : (env.titles.filter (fun t => decide (t.director = some oid))).map unpopulated
        = (env.titles.filter (fun t => decide (t.director = some oid))).map (fun t =>
            ({ id := t.id, show_id := t.show_id, type := t.type, title := t.title,
               director := DirectorField.ref oid, cast := t.cast, country := t.country,
               date_added := t.date_added, release_year := t.release_year,
               rating := t.rating, duration := t.duration, listed_in := t.listed_in,
               description := t.description } : TitleJson)) := by
      apply List.map_congr_left
      intro t ht
      have hdir : t.director = some oid := by simpa using (List.mem_filter.mp ht).2
      exact unpopulated_fields t oid hdir
    simp only [Bool.false_eq_true, if_false]
    rw [hmap]

/-- Witness of C8: director 1 has one title, returned with all its stored
fields and the identifier 1 as `director`; director 2 has none. -/
theorem director_titles_of_existing_director_witness :
    (getDirectorTitles
        (connected [sampleTitle 5 "T" "Ann Lee" (some 1), sampleTitle 6 "U" "Bo Li" none]
          [⟨1, "Ann"⟩, ⟨2, "Bo"⟩])
        "000000000000000000000001").run.outcome
      = .sent ⟨200, .titleList 1
          [{ id := 5, show_id := "s1", type := "Movie", title := "T",
             director := DirectorField.ref 1, cast := "Ann Lee", country := "",
             date_added := "", release_year := 2019, rating := "", duration := "",
             listed_in := "", description := "" }]⟩ ∧
    (getDirectorTitles
        (connected [sampleTitle 5 "T" "Ann Lee" (some 1), sampleTitle 6 "U" "Bo Li" none]
          [⟨1, "Ann"⟩, ⟨2, "Bo"⟩])
        "000000000000000000000002").run.outcome = .sent ⟨200, .titleList 0 []⟩ :=
  ⟨(director_titles_of_existing_director
      (connected [sampleTitle 5 "T" "Ann Lee" (some 1), sampleTitle 6 "U" "Bo Li" none]
        [⟨1, "Ann"⟩, ⟨2, "Bo"⟩])
      "000000000000000000000001" 1 ⟨1, "Ann"⟩ (by decide) (by decide) rfl rfl rfl).2.2,
   (director_titles_of_existing_director
      (connected [sampleTitle 5 "T" "Ann Lee" (some 1), sampleTitle 6 "U" "Bo Li" none]
        [⟨1, "Ann"⟩, ⟨2, "Bo"⟩])
      "000000000000000000000002" 2 ⟨2, "Bo"⟩ (by decide) (by decide) rfl rfl rfl).2.1
    (by decide)⟩

/-- The run of `GET /titles/:id`, by the result of the awaited lookup. -/
theorem getTitleById_outcome (env : Env) (id : String) :
    (getTitleById env id).run.outcome =
      match (env.titleFindById id >>= env.populateOpt).result with
      | .ok t => .sent ⟨200, .title t⟩
      | .error _ => .sent ⟨404, .error "ID not found"⟩ := by
  unfold getTitleById Eff.run Eff.tryCatch
  simp only [bind_eq, pure_eq, Eff.bind, Eff.pure]
  rcases h1 : (env.titleFindById id).result with e | t
  · simp [statusJson]
  · rcases h2 : (env.populateOpt t).result with e | t' <;> simp [h2, json, statusJson]

/-- With unique identifiers, `find?` by identifier returns the stored title. -/
theorem find_title_of_mem (titles : List Title) (t : Title)
    (hu : (titles.map (fun x => x.id)).Nodup) (ht : t ∈ titles) :
    titles.find? (fun x => x.id = t.id) = some t := by
  induction titles with
  | nil => simp at ht
  | cons a rest ih =>
    simp only [List.map_cons, List.nodup_cons] at hu
    rcases List.mem_cons.mp ht with rfl | hmem
    · simp
    · have hne : a.id ≠ t.id := by
        intro heq
        exact hu.1 (heq ▸ List.mem_map_of_mem (fun x => x.id) hmem)
      simp [List.find?_cons, hne, ih hu.2 hmem]

/-- C4: with unique title identifiers, `GET /titles/:id` answers 200 with
`{data: t}` where `t` is the stored title whose identifier is the requested
one: `data` has the requested identifier, every other stored field unchanged
(`show_id`, `type`, `title`, `cast`, `country`, `date_added`, `release_year`,
`rating`, `duration`, `listed_in`, `description`), and in `director` the
document the reference resolves to (nothing when the title has no reference,
`null` when no director has that identifier); answers 200 with `{data: null}`
when the lookup succeeds and no title has that identifier; and answers 404
with `{error: "ID not found"}` exactly when the lookup fails: the identifier
does not cast, or one of the two store calls rejects. -/
theorem title_by_id (env : Env) (id : String)
    (hu : (env.titles.map (fun x => x.id)).Nodup) :
    (∀ oid t, env.castObjectId id = some oid → t ∈ env.titles → t.id = oid →
        env.rejects (.titleFindById id) = false → env.rejects .populateDirector = false →
        (getTitleById env id).run.outcome
            = .sent ⟨200, .title (some (populateOne env.directors t))⟩ ∧
          (populateOne env.directors t).id = oid ∧
          (getTitleById env id).run.outcome
            = .sent ⟨200, .title (some
                { id := oid, show_id := t.show_id, type := t.type, title := t.title,
                  director :=
                    (match t.director with
                     | none => DirectorField.absent
                     | some r =>
                       match env.directors.find? (fun x => x.id = r) with
                       | some x => DirectorField.doc x
                       | none => DirectorField.null),
                  cast := t.cast, country := t.country, date_added := t.date_added,
                  release_year := t.release_year, rating := t.rating,
                  duration := t.duration, listed_in := t.listed_in,
                  description := t.description })⟩) ∧
    (∀ oid, env.castObjectId id = some oid → (∀ t ∈ env.titles, t.id ≠ oid) →
        env.rejects (.titleFindById id) = false → env.rejects .populateDirector = false →
        (getTitleById env id).run.outcome = .sent ⟨200, .title none⟩) ∧
    ((getTitleById env id).run.outcome = .sent ⟨404, .error "ID not found"⟩ ↔
        (env.castObjectId id = none ∨ env.rejects (.titleFindById id) = true ∨
          env.rejects .populateDirector = true)) := by
  refine ⟨?_, ?_, ?_⟩
  · intro oid t hcast ht hid h1 h2
    subst hid
    have hf := find_title_of_mem env.titles t hu ht
    have hout : (getTitleById env id).run.outcome
        = .sent ⟨200, .title (some (populateOne env.directors t))⟩ := by
      rw [getTitleById_outcome]
      simp [bind_eq, Eff.bind, Env.titleFindById, Env.populateOpt, storeCall, hcast, h1, h2, hf]
    refine ⟨hout, rfl, ?_⟩
    rw [hout]
    rfl
  · intro oid hcast hnone h1 h2
    have hf : env.titles.find? (fun x => decide (x.id = oid)) = none := by
      rw [List.find?_eq_none]
      intro t ht
      simpa using hnone t ht
    rw [getTitleById_outcome]
    simp [bind_eq, Eff.bind, Env.titleFindById, Env.populateOpt, storeCall, hcast, h1, h2, hf]
  · rw [getTitleById_outcome]
    rcases hcast : env.castObjectId id with _ | oid
    · simp [bind_eq, Eff.bind, Env.titleFindById, hcast]
    · by_cases h1 : env.rejects (.titleFindById id) = true
      · simp [bind_eq, Eff.bind, Env.titleFindById, storeCall, hcast, h1]
      · by_cases h2 : env.rejects .populateDirector = true
        · simp [bind_eq, Eff.bind, Env.titleFindById, Env.populateOpt, storeCall, hcast, h1, h2]
        · simp [bind_eq, Eff.bind, Env.titleFindById, Env.populateOpt, storeCall, hcast, h1, h2]

/-- Witness of C4: title 5 is stored next to title 6; the answer carries every
stored field of title 5 and the document of director 1. -/
theorem title_by_id_witness :
    (getTitleById
        (connected [sampleTitle 6 "U" "Bo Li" none, sampleTitle 5 "T" "Ann Lee" (some 1)]
          [⟨1, "Ann"⟩])
        "000000000000000000000005").run.outcome
      = .sent ⟨200, .title (some
          { id := 5, show_id := "s1", type := "Movie", title := "T",
            director := DirectorField.doc ⟨1, "Ann"⟩, cast := "Ann Lee", country := "",
            date_added := "", release_year := 2019, rating := "", duration := "",
            listed_in := "", description := "" })⟩ :=
  ((title_by_id
      (connected [sampleTitle 6 "U" "Bo Li" none, sampleTitle 5 "T" "Ann Lee" (some 1)]
        [⟨1, "Ann"⟩])
      "000000000000000000000005" (by decide)).1 5 (sampleTitle 5 "T" "Ann Lee" (some 1))
    (by decide) (by decide) rfl rfl rfl).2.2

/-- C9: `GET /titles/year` without `year` and `GET /titles/cast` without `name`
make no store call and send no response; the same holds for an empty value,
which the code treats as absent. With a value, when the awaited query succeeds
with `data`, the answer is 200 with `{length, data}` where `length` is the
number of elements of `data`. -/
theorem missing_parameter_sends_nothing (env : Env) :
    (getTitlesYear env none).run = ⟨[], .noResponse⟩ ∧
    (getTitlesCast env none).run = ⟨[], .noResponse⟩ ∧
    (getTitlesYear env (some "")).run = ⟨[], .noResponse⟩ ∧
    (getTitlesCast env (some "")).run = ⟨[], .noResponse⟩ ∧
    (∀ y data, y ≠ "" → (env.titleFindYear y >>= env.populate).result = .ok data →
      (getTitlesYear env (some y)).run.outcome = .sent ⟨200, .titleList data.length data⟩) ∧
    (∀ n re data, n ≠ "" → newRegExp env n = some re →
      (env.titleFindCast n re >>= env.populate).result = .ok data →
      (getTitlesCast env (some n)).run.outcome = .sent ⟨200, .titleList data.length data⟩) := by
  refine ⟨by rfl, by rfl, by rfl, by rfl, ?_, ?_⟩
  · intro y data hy hq
    unfold getTitlesYear Eff.run Eff.tryCatch
    simp only [truthy, hy, if_false, bind_eq, pure_eq] at hq ⊢
    generalize (env.titleFindYear y).bind env.populate = q at hq ⊢
    simp [Eff.bind, hq, Eff.pure, json]
  · intro n re data hn hre hq
    unfold getTitlesCast Eff.run Eff.tryCatch
    simp only [truthy, hn, if_false, bind_eq, pure_eq, hre, pure_bind] at hq ⊢
    generalize (env.titleFindCast n re).bind env.populate = q at hq ⊢
    simp [Eff.bind, hq, Eff.pure, json]

/-- Witness of C9: the year 2019 on a store with one title of that year. -/
theorem missing_parameter_sends_nothing_witness :
    (getTitlesYear (connected [sampleTitle 5 "T" "Ann Lee" none] []) (some "2019")).run.outcome
      = .sent ⟨200, .titleList 1 [populateOne [] (sampleTitle 5 "T" "Ann Lee" none)]⟩ :=
  (missing_parameter_sends_nothing (connected [sampleTitle 5 "T" "Ann Lee" none] [])).2.2.2.2.1
    "2019" [populateOne [] (sampleTitle 5 "T" "Ann Lee" none)] (by decide) rfl

/-- A source without syntax characters is read as its characters. -/
theorem parseAtoms_literal (cs : List Char) (h : ∀ c ∈ cs, c ∉ syntaxCharacters) :
    parseAtoms cs = some (cs.map PatternAtom.char) := by
  induction cs with
  | nil => rfl
  | cons c rest ih =>
    have hc : c ∉ syntaxCharacters := h c (List.mem_cons_self c rest)
    have hdot : c ≠ '.' := by
      intro heq
      apply hc
      rw [heq]
      decide
    have hrest := ih (fun x hx => h x (List.mem_cons_of_mem c hx))
    simp [parseAtoms, hdot, hc, hrest]

/-- Literal atoms match at the start of a text exactly when the folded
pattern starts the folded text. -/
theorem matchHere_literal (canon : Char → Char) (p cs : List Char) :
    matchHere canon (p.map PatternAtom.char) cs = true ↔
      ∃ t, cs.map canon = p.map canon ++ t := by
  induction p generalizing cs with
  | nil => simp [matchHere]
  | cons a rest ih =>
    cases cs with
    | nil => simp [matchHere]
    | cons c cs' =>
      simp only [List.map_cons, matchHere, atomMatches, Bool.and_eq_true, decide_eq_true_eq,
        ih cs', List.cons_append, List.cons.injEq]
      constructor
      · rintro ⟨h1, t, ht⟩
        exact ⟨t, h1.symm, ht⟩
      · rintro ⟨t, h1, ht⟩
        exact ⟨h1.symm, t, ht⟩

/-- Literal atoms match somewhere in a text exactly when the folded pattern is
a contiguous run of the folded text. -/
theorem search_literal (canon : Char → Char) (p cs : List Char) :
    search canon (p.map PatternAtom.char) cs = true ↔ p.map canon <:+: cs.map canon := by
  induction cs with
  | nil =>
    simp only [search, matchHere_literal, List.map_nil]
    constructor
    · rintro ⟨t, ht⟩
      exact ⟨[], t, by simpa using ht.symm⟩
    · rintro ⟨b, a, hba⟩
      have h1 : b ++ p.map canon = [] := (List.append_eq_nil.mp hba).1
      have h2 : p.map canon = [] := (List.append_eq_nil.mp h1).2
      exact ⟨[], by simp [h2]⟩
  | cons c cs' ih =>
    simp only [search, Bool.or_eq_true, matchHere_literal, ih]
    constructor
    · rintro (⟨t, ht⟩ | ⟨b, a, hba⟩)
      · exact ⟨[], t, by simpa using ht.symm⟩
      · exact ⟨canon c :: b, a, by simp [← hba]⟩
    · rintro ⟨b, a, hba⟩
      cases b with
      | nil => exact Or.inl ⟨a, by simpa using hba.symm⟩
      | cons x b' =>
        right
        simp only [List.map_cons, List.cons_append, List.cons.injEq] at hba
        exact ⟨b', a, hba.2⟩

/-- The run of `GET /directors` on a value without syntax characters. -/
theorem getDirectors_literal (env : Env) (s : String) (hs : s ≠ "")
    (hlit : ∀ c ∈ s.data, c ∉ syntaxCharacters)
    (hok : env.rejects (.directorFindName s) = false) :
    (getDirectors env (some s)).run.outcome =
      .sent ⟨200, .directorList
        (env.directors.filter
          (fun d => decide (isSubstringIgnoringCase env.canonicalize s d.name))).length
        (env.directors.filter
          (fun d => decide (isSubstringIgnoringCase env.canonicalize s d.name)))⟩ := by
  have hre : newRegExp env s
      = some (fun text => search env.canonicalize (s.data.map PatternAtom.char) text.data) := by
    simp [newRegExp, parseAtoms_literal s.data hlit]
  have hfilter : env.directors.filter
        (fun d => search env.canonicalize (s.data.map PatternAtom.char) d.name.data)
      = env.directors.filter
        (fun d => decide (isSubstringIgnoringCase env.canonicalize s d.name)) := by
    apply List.filter_congr
    intro d _
    rw [Bool.eq_iff_iff]
    simp [search_literal, isSubstringIgnoringCase]
  unfold getDirectors Eff.run Eff.tryCatch
  simp only [truthy, hs, if_false, bind_eq, pure_eq, hre, pure_bind]
  simp [Eff.bind, Eff.pure, Env.directorFindName, storeCall, hok, json, hfilter]

/-- C7, counterexample: the only stored director is named "Ann" and the query
value is ".". The value is a case-insensitive substring of no stored name, yet
the answer is `{length: 1, data: [Ann]}` and not `{length: 0, data: []}`: the
value is used as a regular expression, in which `.` matches any character. -/
theorem directors_query_dot_matches_all :
    (∀ d ∈ (connected [] [⟨1, "Ann"⟩]).directors,
        ¬ isSubstringIgnoringCase (connected [] [⟨1, "Ann"⟩]).canonicalize "." d.name) ∧
    (getDirectors (connected [] [⟨1, "Ann"⟩]) (some ".")).run.outcome
      = .sent ⟨200, .directorList 1 [⟨1, "Ann"⟩]⟩ ∧
    (getDirectors (connected [] [⟨1, "Ann"⟩]) (some ".")).run.outcome
      ≠ .sent ⟨200, .directorList 0 []⟩ := by
  decide

/-- C7, amended: for a non-empty query value `s` without a syntax character of
regular expressions, when the store query does not fail, `GET /directors`
answers 200 with `{length, data}` where `data` is the stored directors whose
name has `s` as a case-insensitive substring; so every such director is in
`data`, and when there is none the body is `{length: 0, data: []}`. -/
theorem directors_query_literal (env : Env) (s : String) (hs : s ≠ "")
    (hlit : ∀ c ∈ s.data, c ∉ syntaxCharacters)
    (hok : env.rejects (.directorFindName s) = false) :
    (getDirectors env (some s)).run.outcome =
      .sent ⟨200, .directorList
        (env.directors.filter
          (fun d => decide (isSubstringIgnoringCase env.canonicalize s d.name))).length
        (env.directors.filter
          (fun d => decide (isSubstringIgnoringCase env.canonicalize s d.name)))⟩ ∧
    (∀ d ∈ env.directors, isSubstringIgnoringCase env.canonicalize s d.name →
      d ∈ env.directors.filter
        (fun d => decide (isSubstringIgnoringCase env.canonicalize s d.name))) ∧
    ((∀ d ∈ env.directors, ¬ isSubstringIgnoringCase env.canonicalize s d.name) →
      (getDirectors env (some s)).run.outcome = .sent ⟨200, .directorList 0 []⟩) := by
  refine ⟨getDirectors_literal env s hs hlit hok, ?_, ?_⟩
  · intro d hd hsub
    simp [List.mem_filter, hd, hsub]
  · intro hnone
    have hnil : env.directors.filter
        (fun d => decide (isSubstringIgnoringCase env.canonicalize s d.name)) = [] := by
      rw [List.filter_eq_nil_iff]
      intro d hd
      simpa using hnone d hd
    rw [getDirectors_literal env s hs hlit hok, hnil]
    rfl

/-- Witness of C7, amended: the value "aN" finds the director named "Ann". -/
theorem directors_query_literal_witness :
    (getDirectors (connected [] [⟨1, "Ann"⟩, ⟨2, "Bo"⟩]) (some "aN")).run.outcome
      = .sent ⟨200, .directorList
        ((connected [] [⟨1, "Ann"⟩, ⟨2, "Bo"⟩]).directors.filter
          (fun d => decide (isSubstringIgnoringCase Char.toUpper "aN" d.name))).length
        ((connected [] [⟨1, "Ann"⟩, ⟨2, "Bo"⟩]).directors.filter
          (fun d => decide (isSubstringIgnoringCase Char.toUpper "aN" d.name)))⟩ :=
  (directors_query_literal (connected [] [⟨1, "Ann"⟩, ⟨2, "Bo"⟩]) "aN" (by decide)
    (by decide) rfl).1

/-- The first loop keeps, in order, the name of every item whose name is not
empty, whatever was pushed before. -/
theorem pushDirectors_fold (items : List Item) (acc : List Director) (n : ObjectId) :
    ((items.foldl pushDirector (acc, n)).1).map (fun d => d.name)
      = acc.map (fun d => d.name)
          ++ (items.map (fun item => item.director)).filter (fun name => name ≠ "") := by
  induction items generalizing acc n with
  | nil => simp
  | cons item rest ih =>
    simp only [List.foldl_cons, List.map_cons]
    by_cases h : item.director = ""
    · simp [pushDirector, h, ih]
    · simp [pushDirector, h, ih, newDirector]

/-- The names of the directors the seed step stores. -/
theorem seedDB_director_names (netflixTitles : List Item) (nextId : ObjectId) (old : Store) :
    (seedDB netflixTitles nextId old).directors.map (fun d => d.name)
      = ((netflixTitles.take 800).map (fun item => item.director)).filter
          (fun name => name ≠ "") := by
  simp only [seedDB, pushDirectors]
  rw [pushDirectors_fold]
  simp

/-- C10, counterexample: two entries with the same director name "Jane Doe".
The seed step stores two `Director` records, although the entries hold one
distinct non-empty name. -/
theorem seed_repeated_name_two_records :
    (seedDB [sampleItem "Show A" "Jane Doe", sampleItem "Show B" "Jane Doe"] 0 ⟨[], []⟩).directors
      = [⟨0, "Jane Doe"⟩, ⟨1, "Jane Doe"⟩] ∧
    distinctDirectorNames [sampleItem "Show A" "Jane Doe", sampleItem "Show B" "Jane Doe"]
      = ["Jane Doe"] ∧
    (seedDB [sampleItem "Show A" "Jane Doe", sampleItem "Show B" "Jane Doe"] 0
        ⟨[], []⟩).directors.length
      ≠ (distinctDirectorNames
          [sampleItem "Show A" "Jane Doe", sampleItem "Show B" "Jane Doe"]).length := by
  decide

/-- C10, amended: for every dataset, the seed step stores one `Director` record
per entry of the first 800 whose director name is not empty, repeated names
included, in the order of the entries, and none for the empty name; so the
number of `Director` records is the number of such entries. With the entries
"Show A" by "Jane Doe" and "Show B" by "" it stores exactly one record. -/
theorem seed_one_director_per_named_entry (netflixTitles : List Item) (nextId : ObjectId)
    (old : Store) :
    (seedDB netflixTitles nextId old).directors.map (fun d => d.name)
      = ((netflixTitles.take 800).map (fun item => item.director)).filter
          (fun name => name ≠ "") ∧
    (seedDB netflixTitles nextId old).directors.length
      = ((netflixTitles.take 800).filter (fun item => item.director ≠ "")).length ∧
    (∀ d ∈ (seedDB netflixTitles nextId old).directors, d.name ≠ "") ∧
    (seedDB [sampleItem "Show A" "Jane Doe", sampleItem "Show B" ""] nextId old).directors
      = [⟨nextId, "Jane Doe"⟩] := by
  have hnames := seedDB_director_names netflixTitles nextId old
  refine ⟨hnames, ?_, ?_, ?_⟩
  · have hlen := congrArg List.length hnames
    rw [List.length_map] at hlen
    rw [hlen, ← List.length_map ((netflixTitles.take 800).filter (fun item => item.director ≠ ""))
      (fun item => item.director), List.filter_map]
    rfl
  · intro d hd hempty
    have hmem : d.name ∈ (seedDB netflixTitles nextId old).directors.map (fun d => d.name) :=
      List.mem_map_of_mem (fun d => d.name) hd
    rw [hnames, List.mem_filter] at hmem
    simpa [hempty] using hmem.2
  · simp [seedDB, pushDirectors, pushDirector, sampleItem, newDirector]

end MongoApi
